import Mathlib

/-!
Shallow embedding of `src/main.py` (`extract_text_from_pdf`) from the
TextExtractor repository, together with theorems settling the claims
about its pipeline behaviour.

The Python function is a linear pipeline over external collaborators
(`os.path.exists`, `pytesseract.get_languages`, `pdf2image.convert_from_path`,
`pytesseract.image_to_string`, and the output-file write).  We model the
collaborators' behaviour during one invocation as an environment record
`Env`, exceptions as the inductive `Exc` mirroring the `except` clauses,
and the run's observable effects (final output-file content, whether the
rasterizer was invoked, how many OCR calls happened) as `RunResult`.
-/

namespace TextExtractor

/-- A rasterized page image.  Opaque to the extractor: it is only ever
passed to the OCR collaborator, so we model it as a bare identifier. -/
abbrev PageImage := Nat

/-- Outcome of one `pytesseract.image_to_string(image, lang=...)` call:
recognized text, a `pytesseract.TesseractError`, or any other exception
(the `except Exception` arm inside the page loop). -/
inductive OcrOutcome where
  | text (s : String)
  | tessError (msg : String)
  | unexpected (msg : String)
deriving DecidableEq

/-- The exception classes that can escape a pipeline stage and reach the
outer handler chain of `extract_text_from_pdf`:
`FileNotFoundError`, `ValueError`, and any other `Exception`. -/
inductive Exc where
  | fileNotFoundError (msg : String)
  | valueError (msg : String)
  | otherException (msg : String)
deriving DecidableEq

/-- The request parameters of `extract_text_from_pdf`, with the Python
defaults. -/
structure Request where
  pdf_path : String
  output_file : String := "extracted_text.txt"
  languages : String := "osd+eng"
  poppler_path : Option String := none
deriving DecidableEq

/-- Behaviour of the external collaborators during one invocation.
`openOk p` models whether `open(p, "w", ...)` succeeds (path writable);
`writeOk p` models whether the subsequent `f.write(...)` succeeds.
Python's `"w"` mode truncates the file as soon as `open` succeeds, before
any write happens. -/
structure Env where
  fileExists : String → Bool
  get_languages : Except String (List String)
  convert_from_path : String → Option String → Except String (List PageImage)
  image_to_string : PageImage → String → OcrOutcome
  openOk : String → Bool
  writeOk : String → Bool

/-- Observable outcome of one run: the returned boolean, the content of
the file at the output path after the run (`none` = no file), and
instrumentation recording which collaborators were invoked. -/
structure RunResult where
  success : Bool
  fs : Option String
  rasterizerCalled : Bool
  langQueried : Bool
  ocrCalls : Nat
deriving DecidableEq

/-- Python's `languages.split('+')` (split on every `'+'`, keeping empty
pieces, `"".split('+') == [""]`). -/
def splitLangs (languages : String) : List String :=
  (languages.toList.splitOn '+').map (fun cs => String.mk cs)

/-- The first language code of `languages.split('+')` that is not a member
of the supported set — the code raises `ValueError` at that point. -/
def unsupportedLang (languages : String) (supported : List String) : Option String :=
  (splitLangs languages).find? (fun l => ! supported.contains l)

/-- One iteration of the page loop: the string appended to `all_text` and
whether `success` survives this page.  A `TesseractError` appends
`f"\n[ОШИБКА OCR НА СТРАНИЦЕ {i + 1}]\n"`, any other exception appends
`f"\n[НЕИЗВЕСТНАЯ ОШИБКА НА СТРАНИЦЕ {i + 1}]\n"`; both set
`success = False` and the loop continues. -/
def pageResult (env : Env) (langs : String) (i : Nat) (img : PageImage) : String × Bool :=
  match env.image_to_string img langs with
  | .text t => (t, true)
  | .tessError _ => ("\n[ОШИБКА OCR НА СТРАНИЦЕ " ++ toString (i + 1) ++ "]\n", false)
  | .unexpected _ => ("\n[НЕИЗВЕСТНАЯ ОШИБКА НА СТРАНИЦЕ " ++ toString (i + 1) ++ "]\n", false)

/-- The page loop `for i, image in enumerate(images)` starting at index
`i`: returns the list `all_text` of per-page results in page order and
the final `success` flag (initially `True`, and-ed with each page's
outcome). -/
def ocrPages (env : Env) (langs : String) : Nat → List PageImage → List String × Bool
  | _, [] => ([], true)
  | i, img :: rest =>
    let pr := pageResult env langs i img
    let prs := ocrPages env langs (i + 1) rest
    (pr.1 :: prs.1, pr.2 && prs.2)

/-- Python's `"\n".join(all_text)`. -/
def joinNL : List String → String
  | [] => ""
  | [t] => t
  | t :: ts => t ++ "\n" ++ joinNL ts

/-- The body of the outer `try` of `extract_text_from_pdf`, threading the
output-file state and instrumentation.  `.ok b` is a normal return with
`success = b`; `.error e` is an exception escaping to the outer handlers.
Stages, in source order: existence check, language-support check (the
inner `try` re-raises, so its result is unchanged), rasterization
(re-raises likewise), the per-page OCR loop (which never raises), and the
output write.  On `open` success the file is truncated to `""` before the
write; a failing write leaves it truncated. -/
def runPipeline (req : Request) (env : Env) (fs0 : Option String) :
    Except Exc Bool × RunResult :=
  if env.fileExists req.pdf_path then
    match env.get_languages with
    | .error m => (.error (.otherException m), ⟨false, fs0, false, true, 0⟩)
    | .ok supported_langs =>
      match unsupportedLang req.languages supported_langs with
      | some lang =>
        (.error (.valueError ("Язык не поддерживается Tesseract: " ++ lang)),
         ⟨false, fs0, false, true, 0⟩)
      | none =>
        match env.convert_from_path req.pdf_path req.poppler_path with
        | .error m => (.error (.otherException m), ⟨false, fs0, true, true, 0⟩)
        | .ok images =>
          if images.isEmpty then
            (.error (.valueError "Не удалось получить изображения из PDF"),
             ⟨false, fs0, true, true, 0⟩)
          else
            let res := ocrPages env req.languages 0 images
            if env.openOk req.output_file then
              if env.writeOk req.output_file then
                (.ok res.2, ⟨res.2, some (joinNL res.1), true, true, images.length⟩)
              else
                (.error (.otherException "Ошибка сохранения результата"),
                 ⟨false, some "", true, true, images.length⟩)
            else
              (.error (.otherException "Ошибка сохранения результата"),
               ⟨false, fs0, true, true, images.length⟩)
  else
    (.error (.fileNotFoundError ("PDF файл не найден: " ++ req.pdf_path)),
     ⟨false, fs0, false, false, 0⟩)

/-- The outer handler chain: `except FileNotFoundError`, `except
ValueError`, `except Exception` — each sets `success = False` and falls
through to `return success`.  `none` would mean the exception escapes to
the caller (no handler matches); every `Exc` class is matched. -/
def handleOuter : Exc → Option Bool
  | .fileNotFoundError _ => some false
  | .valueError _ => some false
  | .otherException _ => some false

/-- `extract_text_from_pdf(pdf_path, output_file, languages, poppler_path)`
run against collaborator behaviour `env` with initial output-file content
`fs0`.  `none` = an exception escaped to the caller (never happens: see
`extract_total`); `some r` = the function returned `r.success` with
observable effects `r`. -/
def extract_text_from_pdf (req : Request) (env : Env) (fs0 : Option String) :
    Option RunResult :=
  match runPipeline req env fs0 with
  | (.ok s, st) => some { st with success := s }
  | (.error e, st) =>
    match handleOuter e with
    | some b => some { st with success := b }
    | none => none

/-- Whether one OCR call succeeded (the `text` arm of the page loop). -/
def ocrOk : OcrOutcome → Bool
  | .text _ => true
  | .tessError _ => false
  | .unexpected _ => false

/-- The marker string the page loop appends when OCR of the page with
1-based number `n` fails, by failure class; `none` for a successful page. -/
def pageMarker : OcrOutcome → Nat → Option String
  | .text _, _ => none
  | .tessError _, n => some ("\n[ОШИБКА OCR НА СТРАНИЦЕ " ++ toString n ++ "]\n")
  | .unexpected _, n => some ("\n[НЕИЗВЕСТНАЯ ОШИБКА НА СТРАНИЦЕ " ++ toString n ++ "]\n")

/-- Spec-side success condition (section 3 of the spec): the source file
exists, the language query succeeded and every requested code is
supported, rasterization succeeded with at least one page, every page
OCR'd without error, and the output write succeeded. -/
def success_spec (req : Request) (env : Env) : Bool :=
  env.fileExists req.pdf_path &&
  (match env.get_languages with
   | .ok supported => (splitLangs req.languages).all (fun l => supported.contains l)
   | .error _ => false) &&
  (match env.convert_from_path req.pdf_path req.poppler_path with
   | .ok images =>
     !images.isEmpty &&
       images.all (fun img => ocrOk (env.image_to_string img req.languages))
   | .error _ => false) &&
  env.openOk req.output_file && env.writeOk req.output_file

/-- Concrete request used for closed-instance checks. -/
def reqW : Request :=
  { pdf_path := "doc.pdf", output_file := "out.txt",
    languages := "osd+eng", poppler_path := none }

/-- Healthy collaborator scenario: file exists, both requested languages
supported, two pages rasterized, OCR returns text on every page, open and
write succeed. -/
def envW : Env :=
  { fileExists := fun _ => true
    get_languages := .ok ["osd", "eng"]
    convert_from_path := fun _ _ => .ok [10, 20]
    image_to_string := fun img _ => .text ("p" ++ toString img)
    openOk := fun _ => true
    writeOk := fun _ => true }

/-- The run result of `reqW` against `envW` from an absent output file. -/
def rW : RunResult := ⟨true, some "p10\np20", true, true, 2⟩

/-- Scenario: a single page whose OCR raises `TesseractError`. -/
def envC3 : Env :=
  { envW with
    convert_from_path := fun _ _ => .ok [10]
    image_to_string := fun _ _ => .tessError "boom" }

/-- Scenario: everything healthy but `f.write` fails after `open`
succeeded. -/
def envC4 : Env :=
  { envW with writeOk := fun _ => false }

/-- Scenario: the engine supports only `eng`, so the requested `osd` code
is unsupported. -/
def envC5 : Env :=
  { envW with get_languages := .ok ["eng"] }

/-- Scenario: the source PDF does not exist. -/
def envC6 : Env :=
  { envW with fileExists := fun _ => false }

/-- Scenario: `pytesseract.get_languages()` itself raises. -/
def envC10 : Env :=
  { envW with get_languages := .error "tesseract is not installed" }

lemma pageResult_snd (env : Env) (langs : String) (i : Nat) (img : PageImage) :
    (pageResult env langs i img).2 = ocrOk (env.image_to_string img langs) := by
  unfold pageResult ocrOk
  cases env.image_to_string img langs <;> rfl

lemma ocrPages_length (env : Env) (langs : String) :
    ∀ (images : List PageImage) (i : Nat),
      ((ocrPages env langs i images).1).length = images.length := by
  intro images
  induction images with
  | nil => intro i; rfl
  | cons img rest ih =>
    intro i
    simpa [ocrPages] using ih (i + 1)

lemma ocrPages_get (env : Env) (langs : String) :
    ∀ (images : List PageImage) (i j : Nat) (h : j < images.length),
      ((ocrPages env langs i images).1)[j]? =
        some (pageResult env langs (i + j) (images.get ⟨j, h⟩)).1 := by
  intro images
  induction images with
  | nil => intro i j h; exact absurd h (Nat.not_lt_zero j)
  | cons img rest ih =>
    intro i j h
    cases j with
    | zero => simp [ocrPages]
    | succ j' =>
      have h' : j' < rest.length := Nat.lt_of_succ_lt_succ h
      have hg : (img :: rest).get ⟨j' + 1, h⟩ = rest.get ⟨j', h'⟩ := rfl
      have e1 : i + (j' + 1) = (i + 1) + j' := by omega
      simp only [ocrPages, List.getElem?_cons_succ, hg, e1]
      exact ih (i + 1) j' h'

lemma ocrPages_snd (env : Env) (langs : String) :
    ∀ (images : List PageImage) (i : Nat),
      (ocrPages env langs i images).2 =
        images.all (fun img => ocrOk (env.image_to_string img langs)) := by
  intro images
  induction images with
  | nil => intro i; rfl
  | cons img rest ih =>
    intro i
    simp [ocrPages, pageResult_snd, ih (i + 1)]

lemma ocrPages_all_text (env : Env) (langs : String) :
    ∀ (images : List PageImage) (ts : List String) (i : Nat),
      images.map (fun img => env.image_to_string img langs) = ts.map OcrOutcome.text →
      ocrPages env langs i images = (ts, true) := by
  intro images
  induction images with
  | nil =>
    intro ts i h
    cases ts with
    | nil => rfl
    | cons t ts' => simp at h
  | cons img rest ih =>
    intro ts i h
    cases ts with
    | nil => simp at h
    | cons t ts' =>
      simp only [List.map, List.cons.injEq] at h
      simp [ocrPages, pageResult, h.1, ih ts' (i + 1) h.2]

lemma unsupportedLang_none (languages : String) (supported : List String) :
    unsupportedLang languages supported = none ↔
      (splitLangs languages).all (fun l => supported.contains l) = true := by
  unfold unsupportedLang
  rw [List.find?_eq_none, List.all_eq_true]
  constructor
  · intro h l hl
    have := h l hl
    simpa using this
  · intro h l hl
    simpa using h l hl

lemma runPipeline_noFile (req : Request) (env : Env) (fs0 : Option String)
    (hfe : env.fileExists req.pdf_path = false) :
    runPipeline req env fs0 =
      (.error (.fileNotFoundError ("PDF файл не найден: " ++ req.pdf_path)),
       ⟨false, fs0, false, false, 0⟩) := by
  simp [runPipeline, hfe]

lemma runPipeline_langQueryFail (req : Request) (env : Env) (fs0 : Option String)
    (m : String) (hfe : env.fileExists req.pdf_path = true)
    (hgl : env.get_languages = .error m) :
    runPipeline req env fs0 =
      (.error (.otherException m), ⟨false, fs0, false, true, 0⟩) := by
  simp [runPipeline, hfe, hgl]

lemma runPipeline_badLang (req : Request) (env : Env) (fs0 : Option String)
    (supported : List String) (lang : String)
    (hfe : env.fileExists req.pdf_path = true)
    (hgl : env.get_languages = .ok supported)
    (hbl : unsupportedLang req.languages supported = some lang) :
    runPipeline req env fs0 =
      (.error (.valueError ("Язык не поддерживается Tesseract: " ++ lang)),
       ⟨false, fs0, false, true, 0⟩) := by
  simp [runPipeline, hfe, hgl, hbl]

lemma runPipeline_convFail (req : Request) (env : Env) (fs0 : Option String)
    (supported : List String) (m : String)
    (hfe : env.fileExists req.pdf_path = true)
    (hgl : env.get_languages = .ok supported)
    (hbl : unsupportedLang req.languages supported = none)
    (hcv : env.convert_from_path req.pdf_path req.poppler_path = .error m) :
    runPipeline req env fs0 =
      (.error (.otherException m), ⟨false, fs0, true, true, 0⟩) := by
  simp [runPipeline, hfe, hgl, hbl, hcv]

lemma runPipeline_noPages (req : Request) (env : Env) (fs0 : Option String)
    (supported : List String) (images : List PageImage)
    (hfe : env.fileExists req.pdf_path = true)
    (hgl : env.get_languages = .ok supported)
    (hbl : unsupportedLang req.languages supported = none)
    (hcv : env.convert_from_path req.pdf_path req.poppler_path = .ok images)
    (hni : images.isEmpty = true) :
    runPipeline req env fs0 =
      (.error (.valueError "Не удалось получить изображения из PDF"),
       ⟨false, fs0, true, true, 0⟩) := by
  simp [runPipeline, hfe, hgl, hbl, hcv, hni]

lemma runPipeline_openFail (req : Request) (env : Env) (fs0 : Option String)
    (supported : List String) (images : List PageImage)
    (hfe : env.fileExists req.pdf_path = true)
    (hgl : env.get_languages = .ok supported)
    (hbl : unsupportedLang req.languages supported = none)
    (hcv : env.convert_from_path req.pdf_path req.poppler_path = .ok images)
    (hni : images.isEmpty = false)
    (hop : env.openOk req.output_file = false) :
    runPipeline req env fs0 =
      (.error (.otherException "Ошибка сохранения результата"),
       ⟨false, fs0, true, true, images.length⟩) := by
  simp [runPipeline, hfe, hgl, hbl, hcv, hni, hop]

lemma runPipeline_writeFail (req : Request) (env : Env) (fs0 : Option String)
    (supported : List String) (images : List PageImage)
    (hfe : env.fileExists req.pdf_path = true)
    (hgl : env.get_languages = .ok supported)
    (hbl : unsupportedLang req.languages supported = none)
    (hcv : env.convert_from_path req.pdf_path req.poppler_path = .ok images)
    (hni : images.isEmpty = false)
    (hop : env.openOk req.output_file = true)
    (hwr : env.writeOk req.output_file = false) :
    runPipeline req env fs0 =
      (.error (.otherException "Ошибка сохранения результата"),
       ⟨false, some "", true, true, images.length⟩) := by
  simp [runPipeline, hfe, hgl, hbl, hcv, hni, hop, hwr]

lemma runPipeline_writeOk (req : Request) (env : Env) (fs0 : Option String)
    (supported : List String) (images : List PageImage)
    (hfe : env.fileExists req.pdf_path = true)
    (hgl : env.get_languages = .ok supported)
    (hbl : unsupportedLang req.languages supported = none)
    (hcv : env.convert_from_path req.pdf_path req.poppler_path = .ok images)
    (hni : images.isEmpty = false)
    (hop : env.openOk req.output_file = true)
    (hwr : env.writeOk req.output_file = true) :
    runPipeline req env fs0 =
      (.ok (ocrPages env req.languages 0 images).2,
       ⟨(ocrPages env req.languages 0 images).2,
        some (joinNL (ocrPages env req.languages 0 images).1),
        true, true, images.length⟩) := by
  simp [runPipeline, hfe, hgl, hbl, hcv, hni, hop, hwr]

/-- C9: `extract_text_from_pdf` is total at its public interface: every
exception class an inner stage can raise is matched by one of the
trailing handlers (`except FileNotFoundError`, `except ValueError`,
`except Exception`) and mapped to a `False` result, so the function
always returns a boolean and never propagates an exception (`none`) to
the caller. -/
theorem extract_text_from_pdf_total (req : Request) (env : Env) (fs0 : Option String) :
    (extract_text_from_pdf req env fs0).isSome = true := by
  unfold extract_text_from_pdf
  rcases runPipeline req env fs0 with ⟨exc, st⟩
  cases exc with
  | ok s => rfl
  | error e => cases e <;> rfl

/-- C6: if the source path does not reference an existing file, the run
returns failure, nothing downstream runs (no language query, no
rasterization, no OCR call), and the file at the output path is neither
created nor modified. -/
theorem missing_file_fails_nothing_runs (req : Request) (env : Env)
    (fs0 : Option String) (r : RunResult)
    (hfe : env.fileExists req.pdf_path = false)
    (h : extract_text_from_pdf req env fs0 = some r) :
    r.success = false ∧ r.fs = fs0 ∧ r.langQueried = false ∧
      r.rasterizerCalled = false ∧ r.ocrCalls = 0 := by
  unfold extract_text_from_pdf at h
  rw [runPipeline_noFile req env fs0 hfe] at h
  simp only [handleOuter, Option.some.injEq] at h
  subst h
  exact ⟨rfl, rfl, rfl, rfl, rfl⟩

/-- C6 witness: the claim instantiated in the `envC6` scenario. -/
theorem missing_file_fails_nothing_runs_witness :
    envC6.fileExists reqW.pdf_path = false ∧
    extract_text_from_pdf reqW envC6 none = some ⟨false, none, false, false, 0⟩ ∧
    ((⟨false, none, false, false, 0⟩ : RunResult).success = false ∧
      (⟨false, none, false, false, 0⟩ : RunResult).fs = none ∧
      (⟨false, none, false, false, 0⟩ : RunResult).langQueried = false ∧
      (⟨false, none, false, false, 0⟩ : RunResult).rasterizerCalled = false ∧
      (⟨false, none, false, false, 0⟩ : RunResult).ocrCalls = 0) :=
  ⟨rfl, rfl, missing_file_fails_nothing_runs reqW envC6 none _ rfl rfl⟩

/-- C10: if the supported-languages query itself fails (the exception is
logged and re-raised by the inner handler, then caught by the outer
`except Exception`), the run returns failure and neither rasterization,
per-page OCR, nor the output write is performed. -/
theorem lang_query_failure_terminal (req : Request) (env : Env)
    (fs0 : Option String) (m : String) (r : RunResult)
    (hfe : env.fileExists req.pdf_path = true)
    (hgl : env.get_languages = .error m)
    (h : extract_text_from_pdf req env fs0 = some r) :
    r.success = false ∧ r.rasterizerCalled = false ∧ r.ocrCalls = 0 ∧
      r.fs = fs0 := by
  unfold extract_text_from_pdf at h
  rw [runPipeline_langQueryFail req env fs0 m hfe hgl] at h
  simp only [handleOuter, Option.some.injEq] at h
  subst h
  exact ⟨rfl, rfl, rfl, rfl⟩

/-- C10 witness: the claim instantiated in the `envC10` scenario. -/
theorem lang_query_failure_terminal_witness :
    envC10.fileExists reqW.pdf_path = true ∧
    envC10.get_languages = .error "tesseract is not installed" ∧
    extract_text_from_pdf reqW envC10 none = some ⟨false, none, false, true, 0⟩ ∧
    ((⟨false, none, false, true, 0⟩ : RunResult).success = false ∧
      (⟨false, none, false, true, 0⟩ : RunResult).rasterizerCalled = false ∧
      (⟨false, none, false, true, 0⟩ : RunResult).ocrCalls = 0 ∧
      (⟨false, none, false, true, 0⟩ : RunResult).fs = none) :=
  ⟨rfl, rfl, rfl, lang_query_failure_terminal reqW envC10 none _ _ rfl rfl rfl⟩

/-- C5: if the requested language specification (split on `'+'`) contains
a code absent from the engine's supported set, the run returns failure
and the rasterizer is never invoked (the failure happens at or before the
language gate), and the output file is untouched. -/
theorem unsupported_language_fails_before_raster (req : Request) (env : Env)
    (fs0 : Option String) (supported : List String) (lang : String) (r : RunResult)
    (hgl : env.get_languages = .ok supported)
    (hbl : unsupportedLang req.languages supported = some lang)
    (h : extract_text_from_pdf req env fs0 = some r) :
    r.success = false ∧ r.rasterizerCalled = false ∧ r.ocrCalls = 0 ∧
      r.fs = fs0 := by
  unfold extract_text_from_pdf at h
  cases hfe : env.fileExists req.pdf_path with
  | false =>
    rw [runPipeline_noFile req env fs0 hfe] at h
    simp only [handleOuter, Option.some.injEq] at h
    subst h
    exact ⟨rfl, rfl, rfl, rfl⟩
  | true =>
    rw [runPipeline_badLang req env fs0 supported lang hfe hgl hbl] at h
    simp only [handleOuter, Option.some.injEq] at h
    subst h
    exact ⟨rfl, rfl, rfl, rfl⟩

/-- C5 witness: the claim instantiated in the `envC5` scenario, where the
requested `osd` code is not in the supported set. -/
theorem unsupported_language_fails_before_raster_witness :
    envC5.get_languages = .ok ["eng"] ∧
    unsupportedLang reqW.languages ["eng"] = some "osd" ∧
    extract_text_from_pdf reqW envC5 none = some ⟨false, none, false, true, 0⟩ ∧
    ((⟨false, none, false, true, 0⟩ : RunResult).success = false ∧
      (⟨false, none, false, true, 0⟩ : RunResult).rasterizerCalled = false ∧
      (⟨false, none, false, true, 0⟩ : RunResult).ocrCalls = 0 ∧
      (⟨false, none, false, true, 0⟩ : RunResult).fs = none) :=
  ⟨rfl, rfl, rfl,
    unsupported_language_fails_before_raster reqW envC5 none ["eng"] "osd" _ rfl rfl rfl⟩

/-- C1: the returned success flag is `true` iff every page OCR'd without
an OCR or unknown error and no other stage (existence check, language
query and validation, rasterization incl. the zero-pages check, output
write) failed — `success_spec` is exactly that conjunction. -/
theorem success_iff_pipeline_clean (req : Request) (env : Env) (fs0 : Option String)
    (r : RunResult) (h : extract_text_from_pdf req env fs0 = some r) :
    r.success = success_spec req env := by
  unfold extract_text_from_pdf at h
  unfold success_spec
  cases hfe : env.fileExists req.pdf_path with
  | false =>
    rw [runPipeline_noFile req env fs0 hfe] at h
    simp only [handleOuter, Option.some.injEq] at h
    subst h
    simp [hfe]
  | true =>
    cases hgl : env.get_languages with
    | error m =>
      rw [runPipeline_langQueryFail req env fs0 m hfe hgl] at h
      simp only [handleOuter, Option.some.injEq] at h
      subst h
      simp [hfe, hgl]
    | ok supported =>
      cases hbl : unsupportedLang req.languages supported with
      | some lang =>
        rw [runPipeline_badLang req env fs0 supported lang hfe hgl hbl] at h
        simp only [handleOuter, Option.some.injEq] at h
        subst h
        have hbl' := hbl
        unfold unsupportedLang at hbl'
        have hmem : lang ∈ splitLangs req.languages := List.mem_of_find?_eq_some hbl'
        have hp0 := List.find?_some hbl'
        have hp : (!supported.contains lang) = true := hp0
        have hall : (splitLangs req.languages).all (fun l => supported.contains l) = false := by
          rw [Bool.eq_false_iff]
          intro hallt
          rw [List.all_eq_true] at hallt
          have hc : supported.contains lang = true := hallt lang hmem
          rw [hc] at hp
          simp at hp
        simp only [hfe, hgl, hall, Bool.true_and, Bool.false_and, Bool.and_false]
      | none =>
        have hall : (splitLangs req.languages).all (fun l => supported.contains l) = true :=
          (unsupportedLang_none _ _).mp hbl
        cases hcv : env.convert_from_path req.pdf_path req.poppler_path with
        | error m =>
          rw [runPipeline_convFail req env fs0 supported m hfe hgl hbl hcv] at h
          simp only [handleOuter, Option.some.injEq] at h
          subst h
          simp [hfe, hgl, hcv]
        | ok images =>
          cases hni : images.isEmpty with
          | true =>
            rw [runPipeline_noPages req env fs0 supported images hfe hgl hbl hcv hni] at h
            simp only [handleOuter, Option.some.injEq] at h
            subst h
            simp [hfe, hgl, hcv, hni]
          | false =>
            cases hop : env.openOk req.output_file with
            | false =>
              rw [runPipeline_openFail req env fs0 supported images hfe hgl hbl hcv hni hop] at h
              simp only [handleOuter, Option.some.injEq] at h
              subst h
              simp [hfe, hgl, hcv, hop]
            | true =>
              cases hwr : env.writeOk req.output_file with
              | false =>
                rw [runPipeline_writeFail req env fs0 supported images hfe hgl hbl hcv hni hop hwr] at h
                simp only [handleOuter, Option.some.injEq] at h
                subst h
                simp [hfe, hgl, hcv, hwr]
              | true =>
                rw [runPipeline_writeOk req env fs0 supported images hfe hgl hbl hcv hni hop hwr] at h
                simp only [Option.some.injEq] at h
                subst h
                simp only [hfe, hgl, hall, hcv, hni, hop, hwr, Bool.true_and, Bool.and_true,
                  Bool.not_false]
                exact ocrPages_snd env req.languages images 0

/-- C1 witness: in the healthy scenario the flag is `true` and
`success_spec` evaluates to `true` as well. -/
theorem success_iff_pipeline_clean_witness :
    extract_text_from_pdf reqW envW none = some rW ∧
    rW.success = success_spec reqW envW ∧ success_spec reqW envW = true :=
  ⟨rfl, success_iff_pipeline_clean reqW envW none rW rfl, rfl⟩

/-- C2: once a rasterized page sequence reaches the OCR stage (and the
write succeeds, so the joined text is observable in the file), every
input page yields exactly one entry of `all_text` (same length), the
entry at index `j` is determined by page `j` alone — so one page's
failure never affects any other page's result — and the file content is
those entries in input order joined in place. -/
theorem ocr_stage_one_result_per_page_in_order (req : Request) (env : Env)
    (fs0 : Option String) (supported : List String) (images : List PageImage)
    (r : RunResult)
    (hfe : env.fileExists req.pdf_path = true)
    (hgl : env.get_languages = .ok supported)
    (hbl : unsupportedLang req.languages supported = none)
    (hcv : env.convert_from_path req.pdf_path req.poppler_path = .ok images)
    (hni : images.isEmpty = false)
    (hop : env.openOk req.output_file = true)
    (hwr : env.writeOk req.output_file = true)
    (h : extract_text_from_pdf req env fs0 = some r) :
    ((ocrPages env req.languages 0 images).1).length = images.length ∧
    (∀ (j : Nat) (hj : j < images.length),
        ((ocrPages env req.languages 0 images).1)[j]? =
          some (pageResult env req.languages j (images.get ⟨j, hj⟩)).1) ∧
    r.fs = some (joinNL (ocrPages env req.languages 0 images).1) := by
  refine ⟨ocrPages_length env req.languages images 0, ?_, ?_⟩
  · intro j hj
    simpa using ocrPages_get env req.languages images 0 j hj
  · unfold extract_text_from_pdf at h
    rw [runPipeline_writeOk req env fs0 supported images hfe hgl hbl hcv hni hop hwr] at h
    simp only [Option.some.injEq] at h
    subst h
    rfl

/-- C2 witness: the claim instantiated in the healthy two-page scenario. -/
theorem ocr_stage_one_result_per_page_in_order_witness :
    envW.fileExists reqW.pdf_path = true ∧
    envW.get_languages = .ok ["osd", "eng"] ∧
    unsupportedLang reqW.languages ["osd", "eng"] = none ∧
    envW.convert_from_path reqW.pdf_path reqW.poppler_path = .ok [10, 20] ∧
    ([10, 20] : List PageImage).isEmpty = false ∧
    envW.openOk reqW.output_file = true ∧
    envW.writeOk reqW.output_file = true ∧
    extract_text_from_pdf reqW envW none = some rW ∧
    (((ocrPages envW reqW.languages 0 [10, 20]).1).length = ([10, 20] : List PageImage).length ∧
      (∀ (j : Nat) (hj : j < ([10, 20] : List PageImage).length),
          ((ocrPages envW reqW.languages 0 [10, 20]).1)[j]? =
            some (pageResult envW reqW.languages j (([10, 20] : List PageImage).get ⟨j, hj⟩)).1) ∧
      rW.fs = some (joinNL (ocrPages envW reqW.languages 0 [10, 20]).1)) :=
  ⟨rfl, rfl, rfl, rfl, rfl, rfl, rfl, rfl,
    ocr_stage_one_result_per_page_in_order reqW envW none ["osd", "eng"] [10, 20] rW
      rfl rfl rfl rfl rfl rfl rfl rfl⟩

/-- C7: if the pipeline is healthy and every page OCRs successfully (the
OCR outcomes are exactly the texts `ts`), the run returns success and the
output file contains exactly those page texts, in page order, joined by a
single newline, with no error markers. -/
theorem all_pages_ok_success_output (req : Request) (env : Env)
    (fs0 : Option String) (supported : List String) (images : List PageImage)
    (ts : List String) (r : RunResult)
    (hfe : env.fileExists req.pdf_path = true)
    (hgl : env.get_languages = .ok supported)
    (hbl : unsupportedLang req.languages supported = none)
    (hcv : env.convert_from_path req.pdf_path req.poppler_path = .ok images)
    (hni : images.isEmpty = false)
    (hts : images.map (fun img => env.image_to_string img req.languages) =
      ts.map OcrOutcome.text)
    (hop : env.openOk req.output_file = true)
    (hwr : env.writeOk req.output_file = true)
    (h : extract_text_from_pdf req env fs0 = some r) :
    r.success = true ∧ r.fs = some (joinNL ts) ∧ ts.length = images.length := by
  have hoc := ocrPages_all_text env req.languages images ts 0 hts
  unfold extract_text_from_pdf at h
  rw [runPipeline_writeOk req env fs0 supported images hfe hgl hbl hcv hni hop hwr,
    hoc] at h
  simp only [Option.some.injEq] at h
  subst h
  refine ⟨rfl, rfl, ?_⟩
  simpa using (congrArg List.length hts).symm

/-- C7 witness: the claim instantiated in the healthy two-page scenario
with recognized texts `p10` and `p20`. -/
theorem all_pages_ok_success_output_witness :
    envW.fileExists reqW.pdf_path = true ∧
    envW.get_languages = .ok ["osd", "eng"] ∧
    unsupportedLang reqW.languages ["osd", "eng"] = none ∧
    envW.convert_from_path reqW.pdf_path reqW.poppler_path = .ok [10, 20] ∧
    ([10, 20] : List PageImage).isEmpty = false ∧
    ([10, 20] : List PageImage).map (fun img => envW.image_to_string img reqW.languages) =
      (["p10", "p20"] : List String).map OcrOutcome.text ∧
    envW.openOk reqW.output_file = true ∧
    envW.writeOk reqW.output_file = true ∧
    extract_text_from_pdf reqW envW none = some rW ∧
    (rW.success = true ∧ rW.fs = some (joinNL ["p10", "p20"]) ∧
      (["p10", "p20"] : List String).length = ([10, 20] : List PageImage).length) :=
  ⟨rfl, rfl, rfl, rfl, rfl, rfl, rfl, rfl, rfl,
    all_pages_ok_success_output reqW envW none ["osd", "eng"] [10, 20]
      ["p10", "p20"] rW rfl rfl rfl rfl rfl rfl rfl rfl rfl⟩

/-- C3 counterexample: with a single page whose OCR raises
`TesseractError`, the block written for that page (here the whole file
content, since there is only one block) is the Russian-language marker
with a leading and a trailing newline of its own — not the bare string
`[OCR ERROR ON PAGE 1]` the claim prescribes. -/
theorem page_marker_literal_counterexample :
    Option.map RunResult.fs (extract_text_from_pdf reqW envC3 none) =
      some (some "\n[ОШИБКА OCR НА СТРАНИЦЕ 1]\n") ∧
    ("\n[ОШИБКА OCR НА СТРАНИЦЕ 1]\n" : String) ≠ "[OCR ERROR ON PAGE 1]" :=
  ⟨rfl, by decide⟩

/-- C3 (amended): the result recorded for a page at 0-based index `j`
whose OCR fails is exactly `"\n[ОШИБКА OCR НА СТРАНИЦЕ " ++ toString (j + 1)
++ "]\n"` for a `TesseractError` and `"\n[НЕИЗВЕСТНАЯ ОШИБКА НА СТРАНИЦЕ "
++ toString (j + 1) ++ "]\n"` for any other failure (see `pageMarker`): a
Russian-language marker naming the 1-based page number, carrying one
extra newline before and after the bracketed text in addition to the
single-newline block separator of the join. -/
theorem failed_page_marker (env : Env) (langs : String) (images : List PageImage)
    (j : Nat) (hj : j < images.length) (s : String)
    (hm : pageMarker (env.image_to_string (images.get ⟨j, hj⟩) langs) (j + 1) = some s) :
    ((ocrPages env langs 0 images).1)[j]? = some s := by
  rw [ocrPages_get env langs images 0 j hj]
  rcases ho : env.image_to_string (images.get ⟨j, hj⟩) langs with t | m | m
  · rw [ho] at hm
    exact absurd hm (by simp [pageMarker])
  · rw [ho] at hm
    simp only [pageMarker, Option.some.injEq] at hm
    subst hm
    simp only [List.get_eq_getElem] at ho
    simp [pageResult, ho]
  · rw [ho] at hm
    simp only [pageMarker, Option.some.injEq] at hm
    subst hm
    simp only [List.get_eq_getElem] at ho
    simp [pageResult, ho]

/-- C3 witness: the amended claim instantiated on the failing one-page
scenario. -/
theorem failed_page_marker_witness :
    0 < ([10] : List PageImage).length ∧
    pageMarker (envC3.image_to_string (([10] : List PageImage).get ⟨0, Nat.one_pos⟩) "osd+eng")
        1 = some "\n[ОШИБКА OCR НА СТРАНИЦЕ 1]\n" ∧
    ((ocrPages envC3 "osd+eng" 0 [10]).1)[0]? = some "\n[ОШИБКА OCR НА СТРАНИЦЕ 1]\n" :=
  ⟨Nat.one_pos, rfl,
    failed_page_marker envC3 "osd+eng" [10] 0 Nat.one_pos _ rfl⟩

/-- C4 counterexample: when `open` succeeds but the write fails, the run
returns failure but the pre-existing file content is destroyed: the final
content is the empty truncation, which is neither the old content nor
the complete output `joinNL ["p10", "p20"]` — so "either a complete
output file exists or the file is not created or modified at all" is
false. -/
theorem write_failure_truncates_counterexample :
    Option.map RunResult.success (extract_text_from_pdf reqW envC4 (some "старый текст")) =
      some false ∧
    Option.map RunResult.fs (extract_text_from_pdf reqW envC4 (some "старый текст")) =
      some (some "") ∧
    ("" : String) ≠ "старый текст" ∧
    ("" : String) ≠ joinNL ["p10", "p20"] :=
  ⟨rfl, rfl, by decide, by decide⟩

/-- C4 (amended): if the write stage is reached and fails, the run
returns failure regardless of how many pages OCR'd successfully; if
`open` itself fails the file at the output path is neither created nor
modified, but if the write fails after a successful `open` the file is
left truncated to `""` (Python's `"w"` mode truncates on open), not with
the complete output. -/
theorem write_failure_outcome (req : Request) (env : Env) (fs0 : Option String)
    (supported : List String) (images : List PageImage) (r : RunResult)
    (hfe : env.fileExists req.pdf_path = true)
    (hgl : env.get_languages = .ok supported)
    (hbl : unsupportedLang req.languages supported = none)
    (hcv : env.convert_from_path req.pdf_path req.poppler_path = .ok images)
    (hni : images.isEmpty = false)
    (h : extract_text_from_pdf req env fs0 = some r) :
    (env.openOk req.output_file = false → r.success = false ∧ r.fs = fs0) ∧
    (env.openOk req.output_file = true → env.writeOk req.output_file = false →
      r.success = false ∧ r.fs = some "") := by
  constructor
  · intro hop
    unfold extract_text_from_pdf at h
    rw [runPipeline_openFail req env fs0 supported images hfe hgl hbl hcv hni hop] at h
    simp only [handleOuter, Option.some.injEq] at h
    subst h
    exact ⟨rfl, rfl⟩
  · intro hop hwr
    unfold extract_text_from_pdf at h
    rw [runPipeline_writeFail req env fs0 supported images hfe hgl hbl hcv hni hop hwr] at h
    simp only [handleOuter, Option.some.injEq] at h
    subst h
    exact ⟨rfl, rfl⟩

/-- C4 witness: the amended claim instantiated in the failing-write
scenario with pre-existing file content. -/
theorem write_failure_outcome_witness :
    envC4.fileExists reqW.pdf_path = true ∧
    envC4.get_languages = .ok ["osd", "eng"] ∧
    unsupportedLang reqW.languages ["osd", "eng"] = none ∧
    envC4.convert_from_path reqW.pdf_path reqW.poppler_path = .ok [10, 20] ∧
    ([10, 20] : List PageImage).isEmpty = false ∧
    extract_text_from_pdf reqW envC4 (some "старый текст") =
      some ⟨false, some "", true, true, 2⟩ ∧
    ((envC4.openOk reqW.output_file = false →
        (⟨false, some "", true, true, 2⟩ : RunResult).success = false ∧
        (⟨false, some "", true, true, 2⟩ : RunResult).fs = some "старый текст") ∧
      (envC4.openOk reqW.output_file = true → envC4.writeOk reqW.output_file = false →
        (⟨false, some "", true, true, 2⟩ : RunResult).success = false ∧
        (⟨false, some "", true, true, 2⟩ : RunResult).fs = some "")) :=
  ⟨rfl, rfl, rfl, rfl, rfl, rfl,
    write_failure_outcome reqW envC4 (some "старый текст") ["osd", "eng"] [10, 20] _
      rfl rfl rfl rfl rfl rfl⟩

/-- C8: determinism/idempotence. The embedding makes the rasterizer and
the OCR engine deterministic functions of their inputs (the `Env`
record), so running the same request again — with the file system now
holding whatever the first run left at the output path — returns the
same success flag and leaves byte-identical output-file content, because
the write fully overwrites and no stage reads the output path. -/
theorem rerun_same_result (req : Request) (env : Env) (fs0 : Option String)
    (r1 r2 : RunResult)
    (h1 : extract_text_from_pdf req env fs0 = some r1)
    (h2 : extract_text_from_pdf req env r1.fs = some r2) :
    r2.success = r1.success ∧ r2.fs = r1.fs := by
  unfold extract_text_from_pdf at h1 h2
  cases hfe : env.fileExists req.pdf_path with
  | false =>
    rw [runPipeline_noFile req env fs0 hfe] at h1
    simp only [handleOuter, Option.some.injEq] at h1
    subst h1
    rw [runPipeline_noFile req env _ hfe] at h2
    simp only [handleOuter, Option.some.injEq] at h2
    subst h2
    exact ⟨rfl, rfl⟩
  | true =>
    cases hgl : env.get_languages with
    | error m =>
      rw [runPipeline_langQueryFail req env fs0 m hfe hgl] at h1
      simp only [handleOuter, Option.some.injEq] at h1
      subst h1
      rw [runPipeline_langQueryFail req env _ m hfe hgl] at h2
      simp only [handleOuter, Option.some.injEq] at h2
      subst h2
      exact ⟨rfl, rfl⟩
    | ok supported =>
      cases hbl : unsupportedLang req.languages supported with
      | some lang =>
        rw [runPipeline_badLang req env fs0 supported lang hfe hgl hbl] at h1
        simp only [handleOuter, Option.some.injEq] at h1
        subst h1
        rw [runPipeline_badLang req env _ supported lang hfe hgl hbl] at h2
        simp only [handleOuter, Option.some.injEq] at h2
        subst h2
        exact ⟨rfl, rfl⟩
      | none =>
        cases hcv : env.convert_from_path req.pdf_path req.poppler_path with
        | error m =>
          rw [runPipeline_convFail req env fs0 supported m hfe hgl hbl hcv] at h1
          simp only [handleOuter, Option.some.injEq] at h1
          subst h1
          rw [runPipeline_convFail req env _ supported m hfe hgl hbl hcv] at h2
          simp only [handleOuter, Option.some.injEq] at h2
          subst h2
          exact ⟨rfl, rfl⟩
        | ok images =>
          cases hni : images.isEmpty with
          | true =>
            rw [runPipeline_noPages req env fs0 supported images hfe hgl hbl hcv hni] at h1
            simp only [handleOuter, Option.some.injEq] at h1
            subst h1
            rw [runPipeline_noPages req env _ supported images hfe hgl hbl hcv hni] at h2
            simp only [handleOuter, Option.some.injEq] at h2
            subst h2
            exact ⟨rfl, rfl⟩
          | false =>
            cases hop : env.openOk req.output_file with
            | false =>
              rw [runPipeline_openFail req env fs0 supported images hfe hgl hbl hcv hni hop] at h1
              simp only [handleOuter, Option.some.injEq] at h1
              subst h1
              rw [runPipeline_openFail req env _ supported images hfe hgl hbl hcv hni hop] at h2
              simp only [handleOuter, Option.some.injEq] at h2
              subst h2
              exact ⟨rfl, rfl⟩
            | true =>
              cases hwr : env.writeOk req.output_file with
              | false =>
                rw [runPipeline_writeFail req env fs0 supported images hfe hgl hbl hcv hni hop hwr] at h1
                simp only [handleOuter, Option.some.injEq] at h1
                subst h1
                rw [runPipeline_writeFail req env _ supported images hfe hgl hbl hcv hni hop hwr] at h2
                simp only [handleOuter, Option.some.injEq] at h2
                subst h2
                exact ⟨rfl, rfl⟩
              | true =>
                rw [runPipeline_writeOk req env fs0 supported images hfe hgl hbl hcv hni hop hwr] at h1
                simp only [Option.some.injEq] at h1
                subst h1
                rw [runPipeline_writeOk req env _ supported images hfe hgl hbl hcv hni hop hwr] at h2
                simp only [Option.some.injEq] at h2
                subst h2
                exact ⟨rfl, rfl⟩

/-- C8 witness: the healthy scenario run twice — the second run starts
from the file the first run wrote and reproduces it byte for byte. -/
theorem rerun_same_result_witness :
    extract_text_from_pdf reqW envW none = some rW ∧
    extract_text_from_pdf reqW envW rW.fs = some rW ∧
    rW.success = rW.success ∧ rW.fs = rW.fs :=
  ⟨rfl, rfl, rerun_same_result reqW envW none rW rW rfl rfl⟩

end TextExtractor
